import Mathlib

/-!
Shallow embedding of `src/examples/array2sh/src/array2sh.c` from the
Spatial_Audio_Framework repository.

The module spatially encodes sensor-array signals into spherical-harmonic (SH)
signals.  The embedding models the fields of `array2sh_data` that the public
API reads and writes (configuration, staged configuration, the tri-state
reinitialisation flags, the evaluation-ready latch), together with the
signal path of `array2sh_process` (lines 156-299 of array2sh.c, the
non-Apple branch of the reinitialisation prelude).

Modelling conventions:
- audio samples live in an arbitrary field `K` (the C code uses `float`;
  every property proved here is structural, i.e. it holds operation-for-
  operation over any field), frequencies in `ℚ`;
- complex frequency-domain samples are pairs `K × K` (the C code stores
  `re`/`im` separately);
- the external collaborators that are not part of this repository
  (`afSTFTforward`, `afSTFTinverse` of afSTFTlib, the library `sqrtf` and
  `powf`, and the out-of-scope filter-design engine
  `array2sh_calculate_sht_matrix`) are taken as function parameters;
- the frame-geometry constants of the missing header `array2sh_internal.h`
  (`HOP_SIZE`, `TIME_SLOTS`, `HYBRID_BANDS`, `FRAME_SIZE`) are parameters,
  with `FRAME_SIZE = TIME_SLOTS * HOP_SIZE` as the spec states (a block is
  an integer number of hops);
- buffers are total functions `ℕ → ℕ → K`; a C loop writing disjoint
  cells is embedded as the pointwise function it computes.
-/

namespace Array2sh

/-- Channel ordering conventions: the CH_ORDER enum of the array2sh module. -/
inductive CH_ORDER
  | CH_ACN
  | CH_FUMA
  deriving DecidableEq, Repr

/-- Normalisation conventions: the NORM_TYPES enum of the array2sh module. -/
inductive NORM_TYPES
  | NORM_N3D
  | NORM_SN3D
  | NORM_FUMA
  deriving DecidableEq, Repr

open CH_ORDER NORM_TYPES

/-- Modelled from the spec: the ENCODING_ORDERS enum of the missing header
`array2sh_internal.h`; the spec fixes first order as order 1
("FuMa ordering/normalization is valid only when order == 1"). -/
def ENCODING_ORDER_FIRST : ℕ := 1

/-- Modelled from the spec: frame-geometry constants of the missing header
`array2sh_internal.h`.  A block is `TIME_SLOTS` hops of `HOP_SIZE` samples
(spec 4.2: "one audio block of fixed length (an integer multiple of the
transform hop size)"), and the filterbank produces `HYBRID_BANDS` bands. -/
structure Params where
  HOP_SIZE : ℕ
  TIME_SLOTS : ℕ
  HYBRID_BANDS : ℕ
  deriving DecidableEq, Repr

/-- FRAME_SIZE as fixed by the spec: an integer number of hops
(array2sh_process covers the frame as TIME_SLOTS hops of HOP_SIZE). -/
def Params.FRAME_SIZE (p : Params) : ℕ := p.TIME_SLOTS * p.HOP_SIZE

/-- The modelled fields of `array2sh_data` (array2sh_internal.h is not in
src; the field list is reconstructed from the uses in array2sh.c).
`W` is the per-band encoding matrix `pData->W[band][ch][q]`,
`freqVector` the band centre frequencies.  Unmodelled fields (array
geometry scalars, display curves, scratch buffers) do not appear in any
claim; the setters that touch only those fields still appear below with
their effect on the modelled fields (the reinit flags). -/
structure Array2shData (K : Type) where
  chOrdering : CH_ORDER
  norm : NORM_TYPES
  gain_dB : ℚ
  maxFreq : ℚ
  fs : ℕ
  Q : ℕ
  newQ : ℕ
  order : ℕ
  nSH : ℕ
  new_order : ℕ
  new_nSH : ℕ
  reinitTFTFLAG : ℕ
  reinitSHTmatrixFLAG : ℕ
  recalcEvalFLAG : ℕ
  evalReady : ℕ
  enableDiffEQpastAliasing : ℕ
  freqVector : ℕ → ℚ
  W : ℕ → ℕ → ℕ → K × K

variable {K : Type} [Field K]

/-- array2sh_create (array2sh.c lines 45-97), restricted to the modelled
fields.  The default preset order and sensor count are produced by
`array2sh_initArray` (array2sh_internal.c, not in src) and are therefore
parameters `defaultOrder`, `defaultQ`.  Lines 58-62 set the defaults
ACN / SN3D / 0 dB gain / 20 kHz cutoff; line 81 and lines 84-88 set
`reinitTFTFLAG = reinitSHTmatrixFLAG = 1`, `new_order = order`,
`nSH = new_nSH = (order+1)*(order+1)`, `evalReady = 0`; line 96 sets
`recalcEvalFLAG = 1`.  `freqVector` and `W` are not yet computed at
creation time and are modelled as zero. -/
def array2sh_create (defaultOrder defaultQ : ℕ) : Array2shData K where
  chOrdering := CH_ACN
  norm := NORM_SN3D
  gain_dB := 0
  maxFreq := 20000
  fs := 0
  Q := defaultQ
  newQ := defaultQ
  order := defaultOrder
  nSH := (defaultOrder + 1) * (defaultOrder + 1)
  new_order := defaultOrder
  new_nSH := (defaultOrder + 1) * (defaultOrder + 1)
  reinitTFTFLAG := 1
  reinitSHTmatrixFLAG := 1
  recalcEvalFLAG := 1
  evalReady := 0
  enableDiffEQpastAliasing := 1
  freqVector := fun _ => 0
  W := fun _ _ _ => (0, 0)

/-- Modelled from the spec: `array2sh_initTFT` (array2sh_internal.c, not in
src).  Spec 4.1 step 1: "reallocate/reshape the transform engine for the
staged sensor/channel counts, commit `order = new_order`, `nSH = new_nSH`,
`Q = newQ`".  The transform-engine handle itself is not modelled. -/
def array2sh_initTFT (s : Array2shData K) : Array2shData K :=
  { s with order := s.new_order, nSH := s.new_nSH, Q := s.newQ }

/-- Modelled from the spec: `array2sh_evaluateSHTfilters`
(array2sh_internal.c, not in src).  Spec 4.1 step 3: recompute the
spatial-correlation/level-difference diagnostics and "set an
`evaluationReady` notification latch".  The diagnostic curves themselves
are not modelled. -/
def array2sh_evaluateSHTfilters (s : Array2shData K) : Array2shData K :=
  { s with evalReady := 1 }

/-- array2sh_checkReInit (lines 310-333).  Each flag that reads 1 is set to
2, the corresponding work is performed, and the flag is set to 0; the net
effect of a completed sequential call is as modelled (the transient value 2
is visible only to concurrent observers).  The out-of-scope filter-design
engine `array2sh_calculate_sht_matrix` is abstracted as `shtW`, a function
producing the new encoding matrix from the current state
(`array2sh_calculate_mag_curves` writes only unmodelled display fields). -/
def array2sh_checkReInit (s : Array2shData K)
    (shtW : Array2shData K → ℕ → ℕ → ℕ → K × K) : Array2shData K :=
  let s1 := if s.reinitTFTFLAG = 1 then
      { array2sh_initTFT s with reinitTFTFLAG := 0 } else s
  let s2 := if s1.reinitSHTmatrixFLAG = 1 then
      { s1 with W := shtW s1, reinitSHTmatrixFLAG := 0 } else s1
  if s2.recalcEvalFLAG = 1 then
    { array2sh_evaluateSHTfilters s2 with recalcEvalFLAG := 0 } else s2

/-- array2sh_init (lines 134-154): store the sampling rate, load the band
centre frequencies (the `__afCenterFreq` tables live outside this module and
are a parameter `freqs`), redefine band 0 to a quarter of band 1 (line 150,
"avoids NaNs at DC"), then reinitialise if needed. -/
def array2sh_init (s : Array2shData K) (sampleRate : ℕ) (freqs : ℕ → ℚ)
    (shtW : Array2shData K → ℕ → ℕ → ℕ → K × K) : Array2shData K :=
  array2sh_checkReInit
    { s with fs := sampleRate,
             freqVector := fun band => if band = 0 then freqs 1 / 4 else freqs band }
    shtW

/-- array2sh_refreshSettings (lines 303-308). -/
def array2sh_refreshSettings (s : Array2shData K) : Array2shData K :=
  { s with reinitTFTFLAG := 1, reinitSHTmatrixFLAG := 1 }

/-- array2sh_setEncodingOrder (lines 335-347): stage the new order and its
channel count, raise both reinit flags, then downgrade FuMa ordering and
normalisation when the order is not first order.  Note the guard tests
`pData->order`, the still-active order, not the `newOrder` being staged. -/
def array2sh_setEncodingOrder (s : Array2shData K) (newOrder : ℕ) : Array2shData K :=
  let s1 := { s with new_order := newOrder,
                     new_nSH := (newOrder + 1) * (newOrder + 1),
                     reinitTFTFLAG := 1, reinitSHTmatrixFLAG := 1 }
  let s2 := if s1.order ≠ ENCODING_ORDER_FIRST ∧ s1.chOrdering = CH_FUMA then
      { s1 with chOrdering := CH_ACN } else s1
  if s2.order ≠ ENCODING_ORDER_FIRST ∧ s2.norm = NORM_FUMA then
    { s2 with norm := NORM_SN3D } else s2

/-- array2sh_evaluateFilters (lines 349-353). -/
def array2sh_evaluateFilters (s : Array2shData K) : Array2shData K :=
  { s with recalcEvalFLAG := 1 }

/-- array2sh_setDiffEQpastAliasing (lines 355-362). -/
def array2sh_setDiffEQpastAliasing (s : Array2shData K) (newState : ℕ) : Array2shData K :=
  if s.enableDiffEQpastAliasing ≠ newState then
    { s with enableDiffEQpastAliasing := newState, reinitSHTmatrixFLAG := 1 }
  else s

/-- array2sh_setPreset (lines 364-374).  `array2sh_initArray` (not in src)
writes the preset order into `new_order`; the chosen preset order is the
parameter `presetOrder`.  The geometry fields it also writes are not
modelled.  Line 371 then derives `new_nSH`, lines 372-373 raise both
flags. -/
def array2sh_setPreset (s : Array2shData K) (presetOrder : ℕ) : Array2shData K :=
  { s with new_order := presetOrder,
           new_nSH := (presetOrder + 1) * (presetOrder + 1),
           reinitTFTFLAG := 1, reinitSHTmatrixFLAG := 1 }

/-- array2sh_setSensorAzi_rad (lines 376-384); the coordinate arrays are not
modelled, the visible effect is the flag. -/
def array2sh_setSensorAzi_rad (s : Array2shData K) : Array2shData K :=
  { s with reinitSHTmatrixFLAG := 1 }

/-- array2sh_setSensorElev_rad (lines 386-394); modelled effect: the flag. -/
def array2sh_setSensorElev_rad (s : Array2shData K) : Array2shData K :=
  { s with reinitSHTmatrixFLAG := 1 }

/-- array2sh_setSensorAzi_deg (lines 396-405); modelled effect: the flag. -/
def array2sh_setSensorAzi_deg (s : Array2shData K) : Array2shData K :=
  { s with reinitSHTmatrixFLAG := 1 }

/-- array2sh_setSensorElev_deg (lines 407-415); modelled effect: the flag. -/
def array2sh_setSensorElev_deg (s : Array2shData K) : Array2shData K :=
  { s with reinitSHTmatrixFLAG := 1 }

/-- array2sh_setNumSensors (lines 417-430): if the requested count is below
the active SH channel count, drop the staged order to first order; store
`newQ`; then set BOTH reinit flags to `1` when the active `Q` differs from
the just-stored `newQ` and to `0` otherwise (the ternaries on lines
428-429 overwrite any previously pending value). -/
def array2sh_setNumSensors (s : Array2shData K) (newQ : ℕ) : Array2shData K :=
  let s1 := if newQ < s.nSH then
      { s with new_order := 1, new_nSH := (1 + 1) * (1 + 1) } else s
  { s1 with newQ := newQ,
            reinitTFTFLAG := if s1.Q ≠ newQ then 1 else 0,
            reinitSHTmatrixFLAG := if s1.Q ≠ newQ then 1 else 0 }

/-- array2sh_setr (lines 432-438); the clamped radius is not modelled, the
visible effect is the flag. -/
def array2sh_setr (s : Array2shData K) : Array2shData K :=
  { s with reinitSHTmatrixFLAG := 1 }

/-- array2sh_setR (lines 440-446); modelled effect: the flag. -/
def array2sh_setR (s : Array2shData K) : Array2shData K :=
  { s with reinitSHTmatrixFLAG := 1 }

/-- array2sh_setArrayType (lines 448-454); modelled effect: the flag. -/
def array2sh_setArrayType (s : Array2shData K) : Array2shData K :=
  { s with reinitSHTmatrixFLAG := 1 }

/-- array2sh_setWeightType (lines 456-463); modelled effect: the flag. -/
def array2sh_setWeightType (s : Array2shData K) : Array2shData K :=
  { s with reinitSHTmatrixFLAG := 1 }

/-- array2sh_setFilterType (lines 465-470); modelled effect: the flag. -/
def array2sh_setFilterType (s : Array2shData K) : Array2shData K :=
  { s with reinitSHTmatrixFLAG := 1 }

/-- array2sh_setRegPar (lines 472-477); the clamped value is not modelled,
the visible effect is the flag. -/
def array2sh_setRegPar (s : Array2shData K) : Array2shData K :=
  { s with reinitSHTmatrixFLAG := 1 }

/-- array2sh_setChOrder (lines 479-484): accept the new ordering unless it
is FuMa while the active order is not first order. -/
def array2sh_setChOrder (s : Array2shData K) (newOrder : CH_ORDER) : Array2shData K :=
  if newOrder ≠ CH_FUMA ∨ s.order = ENCODING_ORDER_FIRST then
    { s with chOrdering := newOrder } else s

/-- array2sh_setNormType (lines 486-491): accept the new normalisation
unless it is FuMa while the active order is not first order. -/
def array2sh_setNormType (s : Array2shData K) (newType : NORM_TYPES) : Array2shData K :=
  if newType ≠ NORM_FUMA ∨ s.order = ENCODING_ORDER_FIRST then
    { s with norm := newType } else s

/-- array2sh_setc (lines 493-498); the clamped speed of sound is not
modelled, the visible effect is the flag. -/
def array2sh_setc (s : Array2shData K) : Array2shData K :=
  { s with reinitSHTmatrixFLAG := 1 }

/-- array2sh_setGain (lines 500-504): clamp to the post-gain bounds of the
missing header (parameters `lo`, `hi`); no flag is raised. -/
def array2sh_setGain (s : Array2shData K) (lo hi newGain : ℚ) : Array2shData K :=
  { s with gain_dB := max lo (min newGain hi) }

/-- array2sh_setMaxFreq (lines 506-510): stored unclamped; no flag. -/
def array2sh_setMaxFreq (s : Array2shData K) (newF : ℚ) : Array2shData K :=
  { s with maxFreq := newF }

/-- array2sh_getEvalReady (lines 515-524): if the latch is set, clear it and
return 1, otherwise return 0 and leave the state untouched. -/
def array2sh_getEvalReady (s : Array2shData K) : ℕ × Array2shData K :=
  if s.evalReady ≠ 0 then (1, { s with evalReady := 0 }) else (0, s)

/-! The signal path of `array2sh_process` (lines 195-293), stage by stage.
The external afSTFT filterbank is abstracted: `fwd t buf ch band` is the
complex bin that `afSTFTforward` delivers for channel `ch` and band `band`
when fed the hop at slot `t` of the time-domain buffer `buf`, and
`inv t frame ch j` is sample `j` of the hop that `afSTFTinverse` delivers
for channel `ch` when fed the frequency frame `frame` at slot `t`. -/

/-- Complex multiplication on re/im pairs, as performed inside
`cblas_cgemm` on `float_complex` values. -/
def cmul (a b : K × K) : K × K :=
  (a.1 * b.1 - a.2 * b.2, a.1 * b.2 + a.2 * b.1)

/-- Scaling of a re/im pair by a real factor, as on lines 239-240
(`gain_lin*crealf(z)`, `gain_lin*cimagf(z)`). -/
def cscale (g : K) (z : K × K) : K × K := (g * z.1, g * z.2)

/-- Lines 206-210: copy the `nInputs` live input channels into
`inputFrameTD` and zero the remaining channels up to `Q` (channels at or
beyond `Q` are never read by the later stages). -/
def inputFrameTD (inputs : ℕ → ℕ → K) (nInputs : ℕ) : ℕ → ℕ → K :=
  fun ch i => if ch < nInputs then inputs ch i else 0

/-- Lines 212-220: forward-transform each hop across the `Q` active sensor
channels into `inputframeTF[band][ch][t]`.  Rows at or beyond `Q` of the
persistent C buffer hold stale data that the later stages never read;
they are modelled as zero. -/
def inputframeTF (fwd : ℕ → (ℕ → ℕ → K) → ℕ → ℕ → K × K)
    (inputs : ℕ → ℕ → K) (nInputs Q : ℕ) : ℕ → ℕ → ℕ → K × K :=
  fun band ch t =>
    if ch < Q then fwd t (inputFrameTD inputs nInputs) ch band else (0, 0)

/-- Lines 222-232: the spherical harmonic transform.  When playing,
`cblas_cgemm` (alpha = 1, beta = 0) writes the complex matrix product
`SHframeTF[band][ch][t] = sum over q < Q of W[band][ch][q] *
inputframeTF[band][q][t]` for the rows `ch < nSH`; rows at or beyond `nSH`
hold stale data never read downstream, modelled as zero.  When not
playing, the whole frame is memset to zero. -/
def SHframeTF (W : ℕ → ℕ → ℕ → K × K)
    (fwd : ℕ → (ℕ → ℕ → K) → ℕ → ℕ → K × K)
    (inputs : ℕ → ℕ → K) (nInputs Q nSH : ℕ) (isPlaying : Bool) :
    ℕ → ℕ → ℕ → K × K :=
  fun band ch t =>
    if isPlaying then
      if ch < nSH then
        (Finset.range Q).sum
          (fun q => cmul (W band ch q) (inputframeTF fwd inputs nInputs Q band q t))
      else (0, 0)
    else (0, 0)

/-- Line 200: the linear post-gain `powf(10.0f, pData->gain_dB/20.0f)`;
the library `powf` is a parameter. -/
def gain_lin (powf : K → K → K) (gain_dB : ℚ) : K :=
  powf 10 ((gain_dB / 20 : ℚ) : K)

/-- Lines 236-249: build the frequency frame handed to `afSTFTinverse` at
slot `t`.  For each band below `HYBRID_BANDS` and channel below `nSH`:
bands whose centre frequency is below `maxFreq` receive the SH signal
scaled by the linear post-gain, bands at or above `maxFreq` are zeroed.
Cells outside that range are stale ones never read by the inverse
transform of the current configuration, modelled as zero. -/
def stftOutputFrame (p : Params) (freqVector : ℕ → ℚ) (maxFreq : ℚ)
    (gainLin : K) (SHframe : ℕ → ℕ → ℕ → K × K) (nSH t : ℕ) :
    ℕ → ℕ → K × K :=
  fun ch band =>
    if band < p.HYBRID_BANDS ∧ ch < nSH then
      if freqVector band < maxFreq then cscale gainLin (SHframe band ch t)
      else (0, 0)
    else (0, 0)

/-- Lines 252-268: copy the inverse-transformed hop at slot `t` into the
output buffer.  `tmp t` is the hop `afSTFTinverse` delivered for slot `t`.
ACN (lines 254-259): channels below `min nSH nOutputs` receive the SH
channel of the same index, the remaining channels up to `nOutputs` are
zeroed.  FuMa (lines 260-267): when at least 4 output channels are
available, SH channels 0,1,2,3 are written to output channels 0,2,3,1;
otherwise NOTHING is written (there is no else branch).  Samples outside
the frame keep the prior buffer contents.  The loop over `t` writes the
disjoint ranges `[t*HOP_SIZE, (t+1)*HOP_SIZE)`; sample `i` of the frame
belongs to slot `i / HOP_SIZE` at hop offset `i % HOP_SIZE`. -/
def orderingStage (p : Params) (chOrdering : CH_ORDER) (nSH nOutputs : ℕ)
    (tmp : ℕ → ℕ → ℕ → K) (outputs0 : ℕ → ℕ → K) : ℕ → ℕ → K :=
  fun ch i =>
    if i < p.FRAME_SIZE then
      match chOrdering with
      | CH_ACN =>
          if ch < min nSH nOutputs then tmp (i / p.HOP_SIZE) ch (i % p.HOP_SIZE)
          else if ch < nOutputs then 0
          else outputs0 ch i
      | CH_FUMA =>
          if 4 ≤ nOutputs then
            if ch = 0 then tmp (i / p.HOP_SIZE) 0 (i % p.HOP_SIZE)
            else if ch = 2 then tmp (i / p.HOP_SIZE) 1 (i % p.HOP_SIZE)
            else if ch = 3 then tmp (i / p.HOP_SIZE) 2 (i % p.HOP_SIZE)
            else if ch = 1 then tmp (i / p.HOP_SIZE) 3 (i % p.HOP_SIZE)
            else outputs0 ch i
          else outputs0 ch i
    else outputs0 ch i

/-- Lines 271-293: the normalisation stage, applied in place over the whole
frame after the ordering stage.  N3D: identity.  SN3D (lines 275-280):
for each order band `n` from 0 to `order` the channels in
`[n*n, min ((n+1)*(n+1)) nOutputs)` are divided by `sqrtf (2n+1)`; the
order band containing channel `ch` is `Nat.sqrt ch`.  FuMa (lines
281-292): when at least 4 output channels are available divide channel 0
by `sqrtf 2` and channels 1-3 by `sqrtf 3`, otherwise memset all
`nOutputs` channels to zero over the frame. -/
def normStage (p : Params) (norm : NORM_TYPES) (order nOutputs : ℕ)
    (sqrtf : K → K) (buf : ℕ → ℕ → K) : ℕ → ℕ → K :=
  fun ch i =>
    match norm with
    | NORM_N3D => buf ch i
    | NORM_SN3D =>
        if Nat.sqrt ch ≤ order ∧ ch < nOutputs ∧ i < p.FRAME_SIZE then
          buf ch i / sqrtf (2 * (Nat.sqrt ch : K) + 1)
        else buf ch i
    | NORM_FUMA =>
        if 4 ≤ nOutputs then
          if i < p.FRAME_SIZE then
            if ch = 0 then buf ch i / sqrtf 2
            else if 1 ≤ ch ∧ ch < 4 then buf ch i / sqrtf 3
            else buf ch i
          else buf ch i
        else if ch < nOutputs ∧ i < p.FRAME_SIZE then 0 else buf ch i

/-- The hop delivered by `afSTFTinverse` for slot `t` (line 250), fed with
the frequency frame of that slot. -/
def invHop (p : Params) (inv : ℕ → (ℕ → ℕ → K × K) → ℕ → ℕ → K)
    (freqVector : ℕ → ℚ) (maxFreq : ℚ) (gainLin : K)
    (SHframe : ℕ → ℕ → ℕ → K × K) (nSH t : ℕ) : ℕ → ℕ → K :=
  inv t (stftOutputFrame p freqVector maxFreq gainLin SHframe nSH t)

/-- The full signal path of `array2sh_process` (the body of the then-branch,
lines 196-293), as a function from the prior output buffer to the new
one.  Lines 198-204 snapshot the configuration from the state `s`. -/
def signalPath (p : Params) (s : Array2shData K)
    (fwd : ℕ → (ℕ → ℕ → K) → ℕ → ℕ → K × K)
    (inv : ℕ → (ℕ → ℕ → K × K) → ℕ → ℕ → K)
    (sqrtf : K → K) (powf : K → K → K)
    (inputs outputs0 : ℕ → ℕ → K) (nInputs nOutputs : ℕ)
    (isPlaying : Bool) : ℕ → ℕ → K :=
  let SHframe := SHframeTF s.W fwd inputs nInputs s.Q s.nSH isPlaying
  let gainLin := gain_lin powf s.gain_dB
  normStage p s.norm s.order nOutputs sqrtf
    (orderingStage p s.chOrdering s.nSH nOutputs
      (fun t => invHop p inv s.freqVector s.maxFreq gainLin SHframe s.nSH t)
      outputs0)

/-- Lines 295-298: the silence branch zeroes the first FRAME_SIZE samples of
each of the `nOutputs` channels (note: FRAME_SIZE samples, not nSamples). -/
def zeroBlock (p : Params) (nOutputs : ℕ) (outputs0 : ℕ → ℕ → K) : ℕ → ℕ → K :=
  fun ch i => if ch < nOutputs ∧ i < p.FRAME_SIZE then 0 else outputs0 ch i

/-- Lines 176-193 (the non-Apple branch): at the top of every process call,
a reinit flag reading 1 is set to 2, the corresponding reinitialisation is
performed, and the flag is set to 0.  `recalcEvalFLAG` is NOT handled
here (its work is "too heavy" for the audio loop and only runs in
`array2sh_checkReInit`). -/
def processPrelude (s : Array2shData K)
    (shtW : Array2shData K → ℕ → ℕ → ℕ → K × K) : Array2shData K :=
  let s1 := if s.reinitTFTFLAG = 1 then
      { array2sh_initTFT s with reinitTFTFLAG := 0 } else s
  if s1.reinitSHTmatrixFLAG = 1 then
    { s1 with W := shtW s1, reinitSHTmatrixFLAG := 0 } else s1

/-- array2sh_process (lines 156-299): run the reinitialisation prelude,
then gate on the block size and the three flags (line 195).  When the gate
passes, the signal path produces the output; otherwise the silence branch
runs.  Returns the post-call state and the output buffer. -/
def array2sh_process (p : Params) (s : Array2shData K)
    (shtW : Array2shData K → ℕ → ℕ → ℕ → K × K)
    (fwd : ℕ → (ℕ → ℕ → K) → ℕ → ℕ → K × K)
    (inv : ℕ → (ℕ → ℕ → K × K) → ℕ → ℕ → K)
    (sqrtf : K → K) (powf : K → K → K)
    (inputs outputs0 : ℕ → ℕ → K)
    (nInputs nOutputs nSamples : ℕ) (isPlaying : Bool) :
    Array2shData K × (ℕ → ℕ → K) :=
  let s2 := processPrelude s shtW
  if nSamples = p.FRAME_SIZE ∧ s2.recalcEvalFLAG = 0 ∧
      s2.reinitSHTmatrixFLAG = 0 ∧ s2.reinitTFTFLAG = 0 then
    (s2, signalPath p s2 fwd inv sqrtf powf inputs outputs0 nInputs nOutputs isPlaying)
  else
    (s2, zeroBlock p nOutputs outputs0)

/-! State-transition view of the public API, used to state invariants over
arbitrary call sequences. -/

/-- One call of the public array2sh API, with its arguments (external
collaborators included, as the data they would return). -/
inductive Op (K : Type) where
  | opSetEncodingOrder (newOrder : ℕ)
  | opSetPreset (presetOrder : ℕ)
  | opSetNumSensors (newQ : ℕ)
  | opSetChOrder (newOrder : CH_ORDER)
  | opSetNormType (newType : NORM_TYPES)
  | opSetGain (lo hi newGain : ℚ)
  | opSetMaxFreq (newF : ℚ)
  | opSetDiffEQpastAliasing (newState : ℕ)
  | opSetSensorAzi_rad
  | opSetSensorElev_rad
  | opSetSensorAzi_deg
  | opSetSensorElev_deg
  | opSetr
  | opSetR
  | opSetArrayType
  | opSetWeightType
  | opSetFilterType
  | opSetRegPar
  | opSetc
  | opRefreshSettings
  | opEvaluateFilters
  | opGetEvalReady
  | opInit (sampleRate : ℕ) (freqs : ℕ → ℚ)
      (shtW : Array2shData K → ℕ → ℕ → ℕ → K × K)
  | opCheckReInit (shtW : Array2shData K → ℕ → ℕ → ℕ → K × K)
  | opProcess (p : Params)
      (shtW : Array2shData K → ℕ → ℕ → ℕ → K × K)
      (fwd : ℕ → (ℕ → ℕ → K) → ℕ → ℕ → K × K)
      (inv : ℕ → (ℕ → ℕ → K × K) → ℕ → ℕ → K)
      (sqrtf : K → K) (powf : K → K → K)
      (inputs outputs0 : ℕ → ℕ → K)
      (nInputs nOutputs nSamples : ℕ) (isPlaying : Bool)

open Op

/-- The state after one API call. -/
def step (s : Array2shData K) : Op K → Array2shData K
  | opSetEncodingOrder newOrder => array2sh_setEncodingOrder s newOrder
  | opSetPreset presetOrder => array2sh_setPreset s presetOrder
  | opSetNumSensors newQ => array2sh_setNumSensors s newQ
  | opSetChOrder newOrder => array2sh_setChOrder s newOrder
  | opSetNormType newType => array2sh_setNormType s newType
  | opSetGain lo hi newGain => array2sh_setGain s lo hi newGain
  | opSetMaxFreq newF => array2sh_setMaxFreq s newF
  | opSetDiffEQpastAliasing newState => array2sh_setDiffEQpastAliasing s newState
  | opSetSensorAzi_rad => array2sh_setSensorAzi_rad s
  | opSetSensorElev_rad => array2sh_setSensorElev_rad s
  | opSetSensorAzi_deg => array2sh_setSensorAzi_deg s
  | opSetSensorElev_deg => array2sh_setSensorElev_deg s
  | opSetr => array2sh_setr s
  | opSetR => array2sh_setR s
  | opSetArrayType => array2sh_setArrayType s
  | opSetWeightType => array2sh_setWeightType s
  | opSetFilterType => array2sh_setFilterType s
  | opSetRegPar => array2sh_setRegPar s
  | opSetc => array2sh_setc s
  | opRefreshSettings => array2sh_refreshSettings s
  | opEvaluateFilters => array2sh_evaluateFilters s
  | opGetEvalReady => (array2sh_getEvalReady s).2
  | opInit sampleRate freqs shtW => array2sh_init s sampleRate freqs shtW
  | opCheckReInit shtW => array2sh_checkReInit s shtW
  | opProcess p shtW fwd inv sqrtf powf inputs outputs0 nInputs nOutputs nSamples isPlaying =>
      (array2sh_process p s shtW fwd inv sqrtf powf inputs outputs0
        nInputs nOutputs nSamples isPlaying).1

/-- The invariant of claim C8: both the active pair (order, nSH) and the
staged pair (new_order, new_nSH) satisfy nSH = (order+1) squared. -/
def orderInv (s : Array2shData K) : Prop :=
  s.nSH = (s.order + 1) * (s.order + 1) ∧
  s.new_nSH = (s.new_order + 1) * (s.new_order + 1)

/-! Concrete instances used to evaluate the model on explicit inputs. -/

/-- A one-hop, one-slot, one-band frame geometry; FRAME_SIZE = 1. -/
def p1 : Params := ⟨1, 1, 1⟩

/-- A forward transform returning silence. -/
def fwd0 : ℕ → (ℕ → ℕ → ℚ) → ℕ → ℕ → ℚ × ℚ := fun _ _ _ _ => (0, 0)

/-- An inverse transform whose every output sample is 1. -/
def inv1 : ℕ → (ℕ → ℕ → ℚ × ℚ) → ℕ → ℕ → ℚ := fun _ _ _ _ => 1

/-- A concrete stand-in for the library sqrtf. -/
def sqrtfId : ℚ → ℚ := fun x => x

/-- A concrete stand-in for the library powf. -/
def powf1 : ℚ → ℚ → ℚ := fun _ _ => 1

/-- A concrete stand-in for the external filter-design engine. -/
def shtW0 : Array2shData ℚ → ℕ → ℕ → ℕ → ℚ × ℚ := fun _ _ _ _ => (0, 0)

/-- A buffer holding 1 everywhere (nonzero prior contents of a host
output buffer). -/
def onesBuf : ℕ → ℕ → ℚ := fun _ _ => 1

/-- A clean baseline state: order 1, four sensors, ACN/N3D, all flags 0. -/
def baseState : Array2shData ℚ where
  chOrdering := CH_ACN
  norm := NORM_N3D
  gain_dB := 0
  maxFreq := 100
  fs := 48000
  Q := 4
  newQ := 4
  order := 1
  nSH := 4
  new_order := 1
  new_nSH := 4
  reinitTFTFLAG := 0
  reinitSHTmatrixFLAG := 0
  recalcEvalFLAG := 0
  evalReady := 0
  enableDiffEQpastAliasing := 1
  freqVector := fun _ => 50
  W := fun _ _ _ => (0, 0)

/-! Helper lemmas. -/

/-- The reinitialisation commit copies the staged pair onto the active
pair, so it preserves the order/nSH relation. -/
lemma orderInv_initTFT (s : Array2shData K) (h : orderInv s) :
    orderInv (array2sh_initTFT s) := ⟨h.2, h.2⟩

/-- The process prelude preserves the order/nSH relation. -/
lemma orderInv_processPrelude (s : Array2shData K)
    (shtW : Array2shData K → ℕ → ℕ → ℕ → K × K) (h : orderInv s) :
    orderInv (processPrelude s shtW) := by
  simp only [processPrelude]
  split_ifs <;> first | exact ⟨h.2, h.2⟩ | exact h

/-- array2sh_checkReInit preserves the order/nSH relation. -/
lemma orderInv_checkReInit (s : Array2shData K)
    (shtW : Array2shData K → ℕ → ℕ → ℕ → K × K) (h : orderInv s) :
    orderInv (array2sh_checkReInit s shtW) := by
  simp only [array2sh_checkReInit]
  split_ifs <;> first | exact ⟨h.2, h.2⟩ | exact h

/-- The state component of array2sh_process is the prelude state. -/
lemma array2sh_process_fst (p : Params) (s : Array2shData K)
    (shtW : Array2shData K → ℕ → ℕ → ℕ → K × K)
    (fwd : ℕ → (ℕ → ℕ → K) → ℕ → ℕ → K × K)
    (inv : ℕ → (ℕ → ℕ → K × K) → ℕ → ℕ → K)
    (sqrtf : K → K) (powf : K → K → K)
    (inputs outputs0 : ℕ → ℕ → K)
    (nInputs nOutputs nSamples : ℕ) (isPlaying : Bool) :
    (array2sh_process p s shtW fwd inv sqrtf powf inputs outputs0
      nInputs nOutputs nSamples isPlaying).1 = processPrelude s shtW := by
  simp only [array2sh_process]
  split_ifs <;> rfl

/-- The process prelude does not touch recalcEvalFLAG. -/
lemma processPrelude_recalc (s : Array2shData K)
    (shtW : Array2shData K → ℕ → ℕ → ℕ → K × K) :
    (processPrelude s shtW).recalcEvalFLAG = s.recalcEvalFLAG := by
  by_cases hA : s.reinitTFTFLAG = 1 <;> by_cases hB : s.reinitSHTmatrixFLAG = 1 <;>
    simp [processPrelude, array2sh_initTFT, hA, hB]

/-- After the prelude, the TFT flag is 0 if it read 1 at entry and is
otherwise unchanged. -/
lemma processPrelude_TFT (s : Array2shData K)
    (shtW : Array2shData K → ℕ → ℕ → ℕ → K × K) :
    (processPrelude s shtW).reinitTFTFLAG =
      if s.reinitTFTFLAG = 1 then 0 else s.reinitTFTFLAG := by
  by_cases hA : s.reinitTFTFLAG = 1 <;> by_cases hB : s.reinitSHTmatrixFLAG = 1 <;>
    simp [processPrelude, array2sh_initTFT, hA, hB]

/-- After the prelude, the SHT-matrix flag is 0 if it read 1 at entry and
is otherwise unchanged. -/
lemma processPrelude_SHT (s : Array2shData K)
    (shtW : Array2shData K → ℕ → ℕ → ℕ → K × K) :
    (processPrelude s shtW).reinitSHTmatrixFLAG =
      if s.reinitSHTmatrixFLAG = 1 then 0 else s.reinitSHTmatrixFLAG := by
  by_cases hA : s.reinitTFTFLAG = 1 <;> by_cases hB : s.reinitSHTmatrixFLAG = 1 <;>
    simp [processPrelude, array2sh_initTFT, hA, hB]

/-- Every API call preserves the order/nSH relation. -/
lemma orderInv_step (s : Array2shData K) (op : Op K) (h : orderInv s) :
    orderInv (step s op) := by
  cases op with
  | opSetEncodingOrder newOrder =>
      simp only [step, array2sh_setEncodingOrder]
      split_ifs <;> exact ⟨h.1, rfl⟩
  | opSetPreset presetOrder => exact ⟨h.1, rfl⟩
  | opSetNumSensors newQ =>
      simp only [step, array2sh_setNumSensors]
      split_ifs <;> first | exact ⟨h.1, rfl⟩ | exact h
  | opSetChOrder newOrder =>
      simp only [step, array2sh_setChOrder]
      split_ifs <;> exact h
  | opSetNormType newType =>
      simp only [step, array2sh_setNormType]
      split_ifs <;> exact h
  | opSetGain lo hi newGain => exact h
  | opSetMaxFreq newF => exact h
  | opSetDiffEQpastAliasing newState =>
      simp only [step, array2sh_setDiffEQpastAliasing]
      split_ifs <;> exact h
  | opSetSensorAzi_rad => exact h
  | opSetSensorElev_rad => exact h
  | opSetSensorAzi_deg => exact h
  | opSetSensorElev_deg => exact h
  | opSetr => exact h
  | opSetR => exact h
  | opSetArrayType => exact h
  | opSetWeightType => exact h
  | opSetFilterType => exact h
  | opSetRegPar => exact h
  | opSetc => exact h
  | opRefreshSettings => exact h
  | opEvaluateFilters => exact h
  | opGetEvalReady =>
      simp only [step, array2sh_getEvalReady]
      split_ifs <;> exact h
  | opInit sampleRate freqs shtW =>
      exact orderInv_checkReInit _ shtW ⟨h.1, h.2⟩
  | opCheckReInit shtW => exact orderInv_checkReInit s shtW h
  | opProcess p shtW fwd inv sqrtf powf inputs outputs0 nInputs nOutputs nSamples isPlaying =>
      simp only [step]
      rw [array2sh_process_fst]
      exact orderInv_processPrelude s shtW h

/-! Claim C8. -/

/-- C8: the relation nSH = (order+1) squared holds exactly for both the
active pair (order, nSH) and the staged pair (new_order, new_nSH) at
construction and after any sequence of API calls (setters, reconciliation,
processing): whenever an order value is stored, the matching nSH field is
set to (that order + 1) squared. -/
theorem C8_nSH_invariant (defaultOrder defaultQ : ℕ) (ops : List (Op K)) :
    orderInv (ops.foldl step (array2sh_create (K := K) defaultOrder defaultQ)) := by
  suffices hstep : ∀ s : Array2shData K, orderInv s → orderInv (ops.foldl step s) from
    hstep _ ⟨rfl, rfl⟩
  induction ops with
  | nil => intro s hs; exact hs
  | cons op rest ih =>
      intro s hs
      exact ih _ (orderInv_step s op hs)

/-! Claim C9. -/

/-- C9: array2sh_getEvalReady is a read-once latch.  If the latch is set,
the call returns 1 and clears exactly the latch, so an immediately
following call returns 0 and changes nothing further; if the latch is
clear, the call returns 0 and leaves the state untouched. -/
theorem C9_evalReady_latch (s : Array2shData K) :
    (s.evalReady ≠ 0 →
      (array2sh_getEvalReady s).1 = 1 ∧
      (array2sh_getEvalReady s).2 = { s with evalReady := 0 } ∧
      (array2sh_getEvalReady (array2sh_getEvalReady s).2).1 = 0 ∧
      (array2sh_getEvalReady (array2sh_getEvalReady s).2).2 = (array2sh_getEvalReady s).2) ∧
    (s.evalReady = 0 →
      (array2sh_getEvalReady s).1 = 0 ∧ (array2sh_getEvalReady s).2 = s) := by
  constructor
  · intro hset
    simp only [array2sh_getEvalReady, if_pos hset]
    simp
  · intro hclear
    simp only [array2sh_getEvalReady, hclear]
    simp

/-- Witness for C9 at a concrete state with the latch set. -/
theorem C9_evalReady_latch_witness :
    (array2sh_getEvalReady { baseState with evalReady := 1 }).1 = 1 ∧
    (array2sh_getEvalReady
      (array2sh_getEvalReady { baseState with evalReady := 1 }).2).1 = 0 := by
  have h := (C9_evalReady_latch { baseState with evalReady := 1 }).1 (by decide)
  exact ⟨h.1, h.2.2.1⟩

/-! Claim C10. -/

/-- C10: array2sh_setNumSensors with newQ equal to the active sensor count
Q sets both reinit flags to 0 (even if a flag was previously 1, so the
call can cancel a reinitialisation an earlier setter made pending); the
flags are set to 1 exactly when newQ differs from the active Q. -/
theorem C10_setNumSensors_flag_reset (s : Array2shData K) (newQ : ℕ) :
    (newQ = s.Q →
      (array2sh_setNumSensors s newQ).reinitTFTFLAG = 0 ∧
      (array2sh_setNumSensors s newQ).reinitSHTmatrixFLAG = 0) ∧
    (newQ ≠ s.Q →
      (array2sh_setNumSensors s newQ).reinitTFTFLAG = 1 ∧
      (array2sh_setNumSensors s newQ).reinitSHTmatrixFLAG = 1) := by
  simp only [array2sh_setNumSensors]
  constructor
  · intro heq
    subst heq
    split_ifs <;> simp_all
  · intro hne
    split_ifs <;> simp_all

/-- Witness for C10: a state with both flags pending at 1 and a call with
the unchanged sensor count cancels both. -/
theorem C10_setNumSensors_flag_reset_witness :
    (array2sh_setNumSensors
      { baseState with reinitTFTFLAG := 1, reinitSHTmatrixFLAG := 1 } 4).reinitTFTFLAG = 0 ∧
    (array2sh_setNumSensors
      { baseState with reinitTFTFLAG := 1, reinitSHTmatrixFLAG := 1 } 4).reinitSHTmatrixFLAG = 0 :=
  (C10_setNumSensors_flag_reset
    { baseState with reinitTFTFLAG := 1, reinitSHTmatrixFLAG := 1 } 4).1 (by decide)

/-! Claim C5. -/

/-- First-order state with FuMa ordering and normalisation staged to order
2: created at order 1, set to FuMa ordering and normalisation (both legal
at order 1), then asked to raise the encoding order to 2. -/
def c5Raised : Array2shData ℚ :=
  array2sh_setEncodingOrder
    (array2sh_setNormType (array2sh_setChOrder (array2sh_create 1 4) CH_FUMA) NORM_FUMA) 2

/-- The c5Raised state after the reconciliation commit of the next
processing call. -/
def c5Committed : Array2shData ℚ := array2sh_initTFT c5Raised

/-- C5, evaluated on the code: raising the order from 1 to 2 while
chOrdering = FuMa does NOT force ACN/SN3D (the guard on lines 343-346
tests the still-active order, which is 1), so after the commit the active
order is 2 with FuMa ordering and normalisation still in place — the
invariant the claim (and the code comment on line 342) states is violated.
Conversely, lowering the order from 2 to 1 while FuMa is active DOES
downgrade ordering and normalisation, which the claim says is a no-op. -/
theorem C5_setEncodingOrder_stale_order_guard :
    c5Raised.chOrdering = CH_FUMA ∧ c5Raised.norm = NORM_FUMA ∧
    c5Raised.new_order = 2 ∧
    c5Committed.order = 2 ∧ c5Committed.chOrdering = CH_FUMA ∧
    c5Committed.norm = NORM_FUMA ∧
    (array2sh_setEncodingOrder c5Committed 1).chOrdering = CH_ACN ∧
    (array2sh_setEncodingOrder c5Committed 1).norm = NORM_SN3D := by
  decide

/-! Claim C1. -/

/-- C1 (amended): recalcEvalFLAG nonzero at call time, or either reinit
flag reading 2 at call time, or a wrong block size, forces an all-zero
output frame; but a reinit flag that reads 1 at entry is reconciled at the
start of the call, and with recalcEvalFLAG clear and the right block size
the call then executes the full signal path on the reconciled state (so a
flag reading 1 at entry does NOT silence the call, contrary to the
original claim). -/
theorem C1_silence_gate_after_prelude (p : Params) (s : Array2shData K)
    (shtW : Array2shData K → ℕ → ℕ → ℕ → K × K)
    (fwd : ℕ → (ℕ → ℕ → K) → ℕ → ℕ → K × K)
    (inv : ℕ → (ℕ → ℕ → K × K) → ℕ → ℕ → K)
    (sqrtf : K → K) (powf : K → K → K)
    (inputs outputs0 : ℕ → ℕ → K)
    (nInputs nOutputs nSamples : ℕ) (isPlaying : Bool) :
    ((s.recalcEvalFLAG ≠ 0 ∨ s.reinitTFTFLAG = 2 ∨ s.reinitSHTmatrixFLAG = 2 ∨
        nSamples ≠ p.FRAME_SIZE) →
      ∀ ch, ch < nOutputs → ∀ i, i < p.FRAME_SIZE →
        (array2sh_process p s shtW fwd inv sqrtf powf inputs outputs0
          nInputs nOutputs nSamples isPlaying).2 ch i = 0) ∧
    ((s.recalcEvalFLAG = 0 ∧ s.reinitTFTFLAG ≤ 1 ∧ s.reinitSHTmatrixFLAG ≤ 1 ∧
        nSamples = p.FRAME_SIZE) →
      (array2sh_process p s shtW fwd inv sqrtf powf inputs outputs0
          nInputs nOutputs nSamples isPlaying).2 =
        signalPath p (processPrelude s shtW) fwd inv sqrtf powf inputs outputs0
          nInputs nOutputs isPlaying) := by
  have hrecalc := processPrelude_recalc s shtW
  have hTFT := processPrelude_TFT s shtW
  have hSHT := processPrelude_SHT s shtW
  constructor
  · intro hbad ch hch i hi
    have hgate : ¬(nSamples = p.FRAME_SIZE ∧
        (processPrelude s shtW).recalcEvalFLAG = 0 ∧
        (processPrelude s shtW).reinitSHTmatrixFLAG = 0 ∧
        (processPrelude s shtW).reinitTFTFLAG = 0) := by
      rintro ⟨hn, hr, hshtm, htft⟩
      rcases hbad with h | h | h | h
      · rw [hrecalc] at hr; exact h hr
      · rw [hTFT, h] at htft; simp at htft
      · rw [hSHT, h] at hshtm; simp at hshtm
      · exact h hn
    simp only [array2sh_process, if_neg hgate, zeroBlock]
    simp [hch, hi]
  · rintro ⟨h1, h2, h3, h4⟩
    have hgate : nSamples = p.FRAME_SIZE ∧
        (processPrelude s shtW).recalcEvalFLAG = 0 ∧
        (processPrelude s shtW).reinitSHTmatrixFLAG = 0 ∧
        (processPrelude s shtW).reinitTFTFLAG = 0 := by
      refine ⟨h4, by rw [hrecalc]; exact h1, ?_, ?_⟩
      · rw [hSHT]; split_ifs with hf
        · rfl
        · omega
      · rw [hTFT]; split_ifs with hf
        · rfl
        · omega
    simp only [array2sh_process, if_pos hgate]

/-- Witness for C1 at a concrete state with recalcEvalFLAG pending. -/
theorem C1_silence_gate_after_prelude_witness :
    (array2sh_process p1 { baseState with recalcEvalFLAG := 1 } shtW0 fwd0 inv1
      sqrtfId powf1 onesBuf (fun _ _ => 0) 1 1 1 false).2 0 0 = 0 :=
  (C1_silence_gate_after_prelude p1 { baseState with recalcEvalFLAG := 1 } shtW0
    fwd0 inv1 sqrtfId powf1 onesBuf (fun _ _ => 0) 1 1 1 false).1
    (Or.inl (by decide)) 0 (by decide) 0 (by decide)

/-- Counterexample to C1 as stated: with reinitTFTFLAG = 1 at call time
(and a correct block size), the call reconciles the flag in its prelude
and then runs the full signal path — here the inverse transform returns
the constant 1, the prior output buffer is all-zero, and the call writes
the nonzero sample 1, so the output block is not all-zero. -/
theorem C1_entry_flag_processes_counterexample :
    ({ baseState with reinitTFTFLAG := 1 } : Array2shData ℚ).reinitTFTFLAG = 1 ∧
    (array2sh_process p1 { baseState with reinitTFTFLAG := 1 } shtW0 fwd0 inv1
      sqrtfId powf1 onesBuf (fun _ _ => 0) 1 1 1 false).2 0 0 = 1 ∧
    (1 : ℚ) ≠ 0 := by
  refine ⟨rfl, rfl, by norm_num⟩

/-! Claim C2. -/

/-- C2 (amended): a call with nSamples different from FRAME_SIZE performs
no processing and zeroes the first FRAME_SIZE samples of each of the
nOutputs channels — FRAME_SIZE samples, not the requested nSamples, so
when nSamples exceeds FRAME_SIZE the tail of the requested range keeps
its prior contents. -/
theorem C2_wrong_block_size_zeroes_frame (p : Params) (s : Array2shData K)
    (shtW : Array2shData K → ℕ → ℕ → ℕ → K × K)
    (fwd : ℕ → (ℕ → ℕ → K) → ℕ → ℕ → K × K)
    (inv : ℕ → (ℕ → ℕ → K × K) → ℕ → ℕ → K)
    (sqrtf : K → K) (powf : K → K → K)
    (inputs outputs0 : ℕ → ℕ → K)
    (nInputs nOutputs nSamples : ℕ) (isPlaying : Bool)
    (h : nSamples ≠ p.FRAME_SIZE) :
    (∀ ch, ch < nOutputs → ∀ i, i < p.FRAME_SIZE →
      (array2sh_process p s shtW fwd inv sqrtf powf inputs outputs0
        nInputs nOutputs nSamples isPlaying).2 ch i = 0) ∧
    (∀ ch i, p.FRAME_SIZE ≤ i →
      (array2sh_process p s shtW fwd inv sqrtf powf inputs outputs0
        nInputs nOutputs nSamples isPlaying).2 ch i = outputs0 ch i) ∧
    (∀ ch i, nOutputs ≤ ch →
      (array2sh_process p s shtW fwd inv sqrtf powf inputs outputs0
        nInputs nOutputs nSamples isPlaying).2 ch i = outputs0 ch i) := by
  have hgate : ¬(nSamples = p.FRAME_SIZE ∧
      (processPrelude s shtW).recalcEvalFLAG = 0 ∧
      (processPrelude s shtW).reinitSHTmatrixFLAG = 0 ∧
      (processPrelude s shtW).reinitTFTFLAG = 0) := fun hc => h hc.1
  simp only [array2sh_process, if_neg hgate, zeroBlock]
  refine ⟨fun ch hch i hi => by simp [hch, hi], fun ch i hi => ?_, fun ch i hch => ?_⟩
  · simp [Nat.not_lt.mpr hi]
  · simp [Nat.not_lt.mpr hch]

/-- Witness for C2 at a concrete call with a wrong block size. -/
theorem C2_wrong_block_size_zeroes_frame_witness :
    (array2sh_process p1 baseState shtW0 fwd0 inv1 sqrtfId powf1 onesBuf onesBuf
      1 1 2 false).2 0 0 = 0 :=
  (C2_wrong_block_size_zeroes_frame p1 baseState shtW0 fwd0 inv1 sqrtfId powf1
    onesBuf onesBuf 1 1 2 false (by decide)).1 0 (by decide) 0 (by decide)

/-- Counterexample to C2 as stated: with FRAME_SIZE = 1 and nSamples = 2,
sample index 1 lies inside the requested size but outside the zeroed
range, so it keeps the prior buffer value 1 instead of being zero. -/
theorem C2_oversized_block_counterexample :
    (2 : ℕ) ≠ p1.FRAME_SIZE ∧ (0 : ℕ) < 1 ∧ (1 : ℕ) < 2 ∧
    (array2sh_process p1 baseState shtW0 fwd0 inv1 sqrtfId powf1 onesBuf onesBuf
      1 1 2 false).2 0 1 = 1 ∧ (1 : ℚ) ≠ 0 := by
  refine ⟨by decide, by decide, by decide, rfl, by norm_num⟩

/-! Helper lemmas for frame indexing: sample `t*HOP_SIZE + j` of the frame
lies in slot `t` at hop offset `j`. -/

/-- A slot-local sample index lies inside the frame. -/
lemma slot_index_lt_frame (p : Params) {t j : ℕ}
    (ht : t < p.TIME_SLOTS) (hj : j < p.HOP_SIZE) :
    t * p.HOP_SIZE + j < p.FRAME_SIZE := by
  have h1 : t * p.HOP_SIZE + j < (t + 1) * p.HOP_SIZE := by
    rw [Nat.succ_mul]
    exact Nat.add_lt_add_left hj _
  exact lt_of_lt_of_le h1 (Nat.mul_le_mul_right _ ht)

/-- The slot of sample `t*HOP_SIZE + j` is `t`. -/
lemma slot_index_div (p : Params) {j : ℕ} (t : ℕ) (hj : j < p.HOP_SIZE) :
    (t * p.HOP_SIZE + j) / p.HOP_SIZE = t := by
  have hH : 0 < p.HOP_SIZE := lt_of_le_of_lt (Nat.zero_le j) hj
  rw [Nat.mul_comm t p.HOP_SIZE, Nat.mul_add_div hH t j, Nat.div_eq_of_lt hj]
  exact Nat.add_zero t

/-- The hop offset of sample `t*HOP_SIZE + j` is `j`. -/
lemma slot_index_mod (p : Params) {j : ℕ} (t : ℕ) (hj : j < p.HOP_SIZE) :
    (t * p.HOP_SIZE + j) % p.HOP_SIZE = j := by
  rw [Nat.mul_comm t p.HOP_SIZE, Nat.mul_add_mod p.HOP_SIZE t j]
  exact Nat.mod_eq_of_lt hj

/-! Claim C3. -/

/-- The baseline state with FuMa channel ordering (and identity N3D
normalisation, isolating the ordering stage). -/
def c3State : Array2shData ℚ := { baseState with chOrdering := CH_FUMA }

/-- C3 (amended): with chOrdering = FuMa the first-order remap
0 to 0, 1 to 2, 2 to 3, 3 to 1 is applied whenever nOutputs is at least 4,
REGARDLESS of the active order (the code never tests the order here); and
when nOutputs is below 4 the FuMa ordering path writes nothing at all, so
(with the identity N3D normalisation) every output channel keeps its prior
buffer contents instead of being silenced. -/
theorem C3_fuma_remap (p : Params) (s : Array2shData K)
    (fwd : ℕ → (ℕ → ℕ → K) → ℕ → ℕ → K × K)
    (inv : ℕ → (ℕ → ℕ → K × K) → ℕ → ℕ → K)
    (sqrtf : K → K) (powf : K → K → K)
    (inputs outputs0 : ℕ → ℕ → K)
    (nInputs nOutputs : ℕ) (isPlaying : Bool)
    (hc : s.chOrdering = CH_FUMA) (hn : s.norm = NORM_N3D) :
    (4 ≤ nOutputs →
      ∀ t, t < p.TIME_SLOTS → ∀ j, j < p.HOP_SIZE →
        (signalPath p s fwd inv sqrtf powf inputs outputs0 nInputs nOutputs isPlaying
            0 (t * p.HOP_SIZE + j) =
          invHop p inv s.freqVector s.maxFreq (gain_lin powf s.gain_dB)
            (SHframeTF s.W fwd inputs nInputs s.Q s.nSH isPlaying) s.nSH t 0 j) ∧
        (signalPath p s fwd inv sqrtf powf inputs outputs0 nInputs nOutputs isPlaying
            2 (t * p.HOP_SIZE + j) =
          invHop p inv s.freqVector s.maxFreq (gain_lin powf s.gain_dB)
            (SHframeTF s.W fwd inputs nInputs s.Q s.nSH isPlaying) s.nSH t 1 j) ∧
        (signalPath p s fwd inv sqrtf powf inputs outputs0 nInputs nOutputs isPlaying
            3 (t * p.HOP_SIZE + j) =
          invHop p inv s.freqVector s.maxFreq (gain_lin powf s.gain_dB)
            (SHframeTF s.W fwd inputs nInputs s.Q s.nSH isPlaying) s.nSH t 2 j) ∧
        (signalPath p s fwd inv sqrtf powf inputs outputs0 nInputs nOutputs isPlaying
            1 (t * p.HOP_SIZE + j) =
          invHop p inv s.freqVector s.maxFreq (gain_lin powf s.gain_dB)
            (SHframeTF s.W fwd inputs nInputs s.Q s.nSH isPlaying) s.nSH t 3 j)) ∧
    (nOutputs < 4 →
      ∀ ch i, signalPath p s fwd inv sqrtf powf inputs outputs0 nInputs nOutputs isPlaying
          ch i = outputs0 ch i) := by
  constructor
  · intro h4 t ht j hj
    have hiF := slot_index_lt_frame p ht hj
    have hdiv := slot_index_div p t hj
    have hmod := slot_index_mod p t hj
    refine ⟨?_, ?_, ?_, ?_⟩ <;>
      simp [signalPath, normStage, orderingStage, hc, hn, hiF, h4, hdiv, hmod]
  · intro h4 ch i
    have hno : ¬ 4 ≤ nOutputs := Nat.not_le.mpr h4
    simp only [signalPath, normStage, orderingStage, hc, hn]
    split_ifs <;> rfl

/-- Witness for C3: at four output channels, SH channel 1 lands on output
channel 2. -/
theorem C3_fuma_remap_witness :
    signalPath p1 c3State fwd0 inv1 sqrtfId powf1 onesBuf onesBuf 1 4 false
        2 (0 * p1.HOP_SIZE + 0) =
      invHop p1 inv1 c3State.freqVector c3State.maxFreq
        (gain_lin powf1 c3State.gain_dB)
        (SHframeTF c3State.W fwd0 onesBuf 1 c3State.Q c3State.nSH false)
        c3State.nSH 0 1 0 :=
  ((C3_fuma_remap p1 c3State fwd0 inv1 sqrtfId powf1 onesBuf onesBuf 1 4 false
    rfl rfl).1 (by decide) 0 (by decide) 0 (by decide)).2.1

/-- Counterexample to C3 as stated: order 1, FuMa ordering, only 3 output
channels — the claim says output channels 1-3 are silent, but the FuMa
path writes nothing, so channel 1 keeps the prior buffer value 1. -/
theorem C3_fuma_small_nOutputs_counterexample :
    c3State.chOrdering = CH_FUMA ∧ c3State.order = 1 ∧ ¬(4 ≤ 3) ∧
    (array2sh_process p1 c3State shtW0 fwd0 inv1 sqrtfId powf1 onesBuf onesBuf
      1 3 1 false).2 1 0 = 1 ∧ (1 : ℚ) ≠ 0 := by
  refine ⟨rfl, rfl, by decide, rfl, by norm_num⟩

/-! Claim C4. -/

/-- C4 (amended): in the ACN ordering path every output channel with index
at least min(nSH, nOutputs) and below nOutputs is exactly zero over the
whole frame, for every normalisation setting.  (In the FuMa ordering path
this fails: channels outside 0-3 keep their prior contents.) -/
theorem C4_acn_tail_channels_zero (p : Params) (s : Array2shData K)
    (fwd : ℕ → (ℕ → ℕ → K) → ℕ → ℕ → K × K)
    (inv : ℕ → (ℕ → ℕ → K × K) → ℕ → ℕ → K)
    (sqrtf : K → K) (powf : K → K → K)
    (inputs outputs0 : ℕ → ℕ → K)
    (nInputs nOutputs : ℕ) (isPlaying : Bool)
    (hc : s.chOrdering = CH_ACN) :
    ∀ ch, min s.nSH nOutputs ≤ ch → ch < nOutputs → ∀ i, i < p.FRAME_SIZE →
      signalPath p s fwd inv sqrtf powf inputs outputs0 nInputs nOutputs isPlaying
        ch i = 0 := by
  intro ch hmin hch i hi
  have hb : orderingStage p CH_ACN s.nSH nOutputs
      (fun t => invHop p inv s.freqVector s.maxFreq (gain_lin powf s.gain_dB)
        (SHframeTF s.W fwd inputs nInputs s.Q s.nSH isPlaying) s.nSH t)
      outputs0 ch i = 0 := by
    simp [orderingStage, hi, Nat.not_lt.mpr hmin, hch]
  simp only [signalPath, hc]
  cases hnorm : s.norm with
  | NORM_N3D => exact hb
  | NORM_SN3D =>
      simp only [normStage]
      rw [hb]
      split_ifs <;> simp
  | NORM_FUMA =>
      simp only [normStage]
      rw [hb]
      split_ifs <;> simp

/-- Witness for C4 at a concrete ACN call with five output channels and
four SH channels. -/
theorem C4_acn_tail_channels_zero_witness :
    signalPath p1 baseState fwd0 inv1 sqrtfId powf1 onesBuf onesBuf 1 5 false 4 0 = 0 :=
  C4_acn_tail_channels_zero p1 baseState fwd0 inv1 sqrtfId powf1 onesBuf onesBuf
    1 5 false rfl 4 (by decide) (by decide) 0 (by decide)

/-- Counterexample to C4 as stated: FuMa ordering, nSH = 4, nOutputs = 5 —
channel 4 is at least min(nSH, nOutputs) = 4 and below nOutputs, yet the
signal path leaves it at the prior buffer value 1 instead of zero. -/
theorem C4_fuma_tail_channel_counterexample :
    c3State.chOrdering = CH_FUMA ∧ min c3State.nSH 5 ≤ 4 ∧ (4 : ℕ) < 5 ∧
    0 < p1.FRAME_SIZE ∧
    (array2sh_process p1 c3State shtW0 fwd0 inv1 sqrtfId powf1 onesBuf onesBuf
      1 5 1 false).2 4 0 = 1 ∧ (1 : ℚ) ≠ 0 := by
  refine ⟨rfl, by decide, by decide, by decide, rfl, by norm_num⟩

/-! Claim C6. -/

/-- A channel lying in the order band [n*n, (n+1)*(n+1)) has Nat.sqrt
equal to n. -/
lemma sqrt_of_band {n ch : ℕ} (h1 : n * n ≤ ch) (h2 : ch < (n + 1) * (n + 1)) :
    Nat.sqrt ch = n :=
  Nat.le_antisymm (Nat.lt_succ_iff.mp (Nat.sqrt_lt.mpr h2)) (Nat.le_sqrt.mpr h1)

/-- C6: with norm = SN3D, every sample of a channel ch lying in order band
n (that is, n*n ≤ ch < (n+1)*(n+1)) with n at most the active order and
ch below nOutputs equals the corresponding N3D (un-normalised) signal-path
result divided by sqrtf(2n+1); and with norm = N3D the normalisation stage
is the identity. -/
theorem C6_sn3d_relation (p : Params) (s : Array2shData K)
    (fwd : ℕ → (ℕ → ℕ → K) → ℕ → ℕ → K × K)
    (inv : ℕ → (ℕ → ℕ → K × K) → ℕ → ℕ → K)
    (sqrtf : K → K) (powf : K → K → K)
    (inputs outputs0 : ℕ → ℕ → K)
    (nInputs nOutputs : ℕ) (isPlaying : Bool) (n ch i : ℕ)
    (hn : n ≤ s.order) (h1 : n * n ≤ ch) (h2 : ch < (n + 1) * (n + 1))
    (hch : ch < nOutputs) (hi : i < p.FRAME_SIZE) :
    (signalPath p { s with norm := NORM_SN3D } fwd inv sqrtf powf inputs outputs0
        nInputs nOutputs isPlaying ch i =
      signalPath p { s with norm := NORM_N3D } fwd inv sqrtf powf inputs outputs0
        nInputs nOutputs isPlaying ch i / sqrtf (2 * (n : K) + 1)) ∧
    (∀ buf : ℕ → ℕ → K, ∀ c j,
      normStage p NORM_N3D s.order nOutputs sqrtf buf c j = buf c j) := by
  have hs := sqrt_of_band h1 h2
  constructor
  · simp only [signalPath, normStage]
    rw [if_pos ⟨hs ▸ hn, hch, hi⟩, hs]
  · intro buf c j
    rfl

/-- Witness for C6 at order band 1, channel 2, four output channels. -/
theorem C6_sn3d_relation_witness :
    signalPath p1 { baseState with norm := NORM_SN3D } fwd0 inv1 sqrtfId powf1
        onesBuf onesBuf 1 4 false 2 0 =
      signalPath p1 { baseState with norm := NORM_N3D } fwd0 inv1 sqrtfId powf1
        onesBuf onesBuf 1 4 false 2 0 / sqrtfId (2 * (1 : ℚ) + 1) :=
  (C6_sn3d_relation p1 baseState fwd0 inv1 sqrtfId powf1 onesBuf onesBuf 1 4 false
    1 2 0 (by decide) (by decide) (by decide) (by decide) (by decide)).1

/-! Claim C7. -/

/-- C7: in the frequency frame handed to the inverse transform, a band
whose centre frequency is at or above maxFreq carries zero SH
coefficients, and a band below maxFreq carries the SH signal scaled by the
linear post-gain powf(10, gain_dB/20), for every channel below nSH. -/
theorem C7_frequency_gate (p : Params) (freqVector : ℕ → ℚ) (maxFreq gain_dB : ℚ)
    (powf : K → K → K) (SHframe : ℕ → ℕ → ℕ → K × K) (nSH t ch band : ℕ)
    (hb : band < p.HYBRID_BANDS) (hch : ch < nSH) :
    (maxFreq ≤ freqVector band →
      stftOutputFrame p freqVector maxFreq (gain_lin powf gain_dB) SHframe nSH t
        ch band = (0, 0)) ∧
    (freqVector band < maxFreq →
      stftOutputFrame p freqVector maxFreq (gain_lin powf gain_dB) SHframe nSH t
        ch band =
        (powf 10 ((gain_dB / 20 : ℚ) : K) * (SHframe band ch t).1,
         powf 10 ((gain_dB / 20 : ℚ) : K) * (SHframe band ch t).2)) := by
  constructor
  · intro hge
    simp [stftOutputFrame, hb, hch, not_lt.mpr hge]
  · intro hlt
    simp [stftOutputFrame, hb, hch, hlt, cscale, gain_lin]

/-- Witness for C7 at a band whose centre frequency 50 is at or above the
cutoff 40. -/
theorem C7_frequency_gate_witness :
    stftOutputFrame p1 (fun _ => 50) 40 (gain_lin powf1 0)
      (fun _ _ _ => ((1 : ℚ), (2 : ℚ))) 1 0 0 0 = (0, 0) :=
  (C7_frequency_gate p1 (fun _ => 50) 40 0 powf1 (fun _ _ _ => (1, 2)) 1 0 0 0
    (by decide) (by decide)).1 (by decide)

end Array2sh
